import Mathlib

/-!
Verification of thatchertiler's TileJSON/StyleJSON synthesis and URL
composition logic (src/thatchertiler/factory.py and model.py), together
with the starlette routing helpers those functions call
(replace_params, compile_path, URLPath.make_absolute_url).

Strings that travel through HTTP are modelled as byte lists
(`List Nat`, each element a byte); all literals used are ASCII so the
bytes coincide with code points.  Python floats appearing as style
constants are exact decimal literals, modelled as rationals.
-/

namespace ThatcherTiler

/-- Byte list of a string literal (all literals used here are ASCII,
so code points and UTF-8 bytes coincide). -/
def strBytes (s : String) : List Nat := s.data.map Char.toNat

/-! ### urllib.parse.urlencode / quote_plus and a decoder

`urlencode(seq)` (used at factory.py lines 187 and 225 on
`request.query_params._list`) percent-encodes each key and value with
`quote_plus` and joins them as `k=v` pairs with `&`. -/

/-- urllib's ALWAYS_SAFE byte set restricted to `safe=''` (the
`urlencode` default): ASCII alphanumerics and `_`, `.`, `-`, `~`. -/
def alwaysSafeByte (b : Nat) : Prop :=
  (48 ≤ b ∧ b ≤ 57) ∨ (65 ≤ b ∧ b ≤ 90) ∨ (97 ≤ b ∧ b ≤ 122) ∨
    b = 95 ∨ b = 46 ∨ b = 45 ∨ b = 126

instance (b : Nat) : Decidable (alwaysSafeByte b) := by
  unfold alwaysSafeByte; infer_instance

/-- Upper-case hex digit byte for a nibble, as produced by urllib's
percent-escapes (`%XX` with upper-case hex). -/
def hexUpper (n : Nat) : Nat := if n < 10 then 48 + n else 55 + n

/-- `quote_plus` on a single byte: kept verbatim if always-safe,
space becomes `+` (43), anything else becomes `%XX`. -/
def quoteByte (b : Nat) : List Nat :=
  if alwaysSafeByte b then [b]
  else if b = 32 then [43]
  else [37, hexUpper (b / 16), hexUpper (b % 16)]

/-- urllib.parse.quote_plus with `safe=''`, on bytes. -/
def quote_plus (s : List Nat) : List Nat := s.flatMap quoteByte

/-- urllib.parse.urlencode on an association list of query parameters:
`quote_plus(k) ++ "=" ++ quote_plus(v)` pairs joined by `&`. -/
def urlencode (qs : List (List Nat × List Nat)) : List Nat :=
  List.intercalate [38] (qs.map (fun kv => quote_plus kv.1 ++ 61 :: quote_plus kv.2))

/-- Value of a hex digit byte, accepting both cases. -/
def hexVal? (b : Nat) : Option Nat :=
  if 48 ≤ b ∧ b ≤ 57 then some (b - 48)
  else if 65 ≤ b ∧ b ≤ 70 then some (b - 55)
  else if 97 ≤ b ∧ b ≤ 102 then some (b - 87)
  else none

/-- Percent-decoding with `+` as space (the reverse reading of
`quote_plus`); an ill-formed escape is kept literally. -/
def unquote_plus : List Nat → List Nat
  | [] => []
  | 43 :: rest => 32 :: unquote_plus rest
  | 37 :: h :: l :: rest2 =>
    match hexVal? h, hexVal? l with
    | some hv, some lv => (hv * 16 + lv) :: unquote_plus rest2
    | _, _ => 37 :: unquote_plus (h :: l :: rest2)
  | b :: rest => b :: unquote_plus rest

/-- Read a query string back into its parameter list: split on `&`,
split each pair at the first `=`, percent-decode both sides.  This is
the specification-side inverse used to state that a generated query
string carries exactly the original parameters. -/
def decodeQuery (s : List Nat) : List (List Nat × List Nat) :=
  (s.splitOn 38).map (fun part =>
    (unquote_plus (part.takeWhile (fun b => b != 61)),
     unquote_plus ((part.dropWhile (fun b => b != 61)).drop 1)))

/-- The part of a URL after its first `?`. -/
def queryStringOf (u : List Nat) : List Nat :=
  (u.dropWhile (fun b => b != 63)).drop 1

/-! ### Metadata and style model (model.py, factory.py stylejson_endpoint)

A vector-layer descriptor from the archive metadata; the style code
(factory.py lines 262-322) reads only its `id` key. -/

structure LayerMeta where
  id : String
deriving DecidableEq

/-- A JSON literal appearing as a paint property value. -/
inductive JLit where
  | jstr (s : String)
  | jnum (q : ℚ)
deriving DecidableEq

/-- One entry of the `layers` list built by stylejson_endpoint.  The
`filter` field `some g` stands for the source's constant-shape filter
list `["==", ["geometry-type"], g]`. -/
structure StyleLayer where
  id : String
  type : String
  source : String
  source_layer : Option String := none
  minzoom : Option ℤ := none
  maxzoom : Option ℤ := none
  filter : Option String := none
  paint : Option (List (String × JLit)) := none
deriving DecidableEq

/-- The initial basemap layer (factory.py lines 251-259). -/
def basemap_layer : StyleLayer :=
  { id := "basemap", type := "raster", source := "basemap",
    minzoom := some 0, maxzoom := some 20 }

/-- Fill layer appended for a descriptor whose id is "mask"
(factory.py lines 265-278). -/
def mask_fill_layer (layer_id : String) : StyleLayer :=
  { id := layer_id ++ "_fill", type := "fill", source := "pmtiles",
    source_layer := some layer_id, filter := some "Polygon",
    paint := some [("fill-color", JLit.jstr "black"),
                   ("fill-opacity", JLit.jnum 0.8)] }

/-- Fill layer appended for any other descriptor (factory.py lines 280-293). -/
def plain_fill_layer (layer_id : String) : StyleLayer :=
  { id := layer_id ++ "_fill", type := "fill", source := "pmtiles",
    source_layer := some layer_id, filter := some "Polygon",
    paint := some [("fill-color", JLit.jstr "rgba(200, 100, 240, 0.4)"),
                   ("fill-outline-color", JLit.jstr "#000")] }

/-- Line layer appended for every descriptor (factory.py lines 295-308). -/
def stroke_layer (layer_id : String) : StyleLayer :=
  { id := layer_id ++ "_stroke", source := "pmtiles",
    source_layer := some layer_id, type := "line",
    filter := some "LineString",
    paint := some [("line-color", JLit.jstr "#000"),
                   ("line-width", JLit.jnum 1),
                   ("line-opacity", JLit.jnum 0.75)] }

/-- Circle layer appended for every descriptor (factory.py lines 309-322). -/
def point_layer (layer_id : String) : StyleLayer :=
  { id := layer_id ++ "_point", source := "pmtiles",
    source_layer := some layer_id, type := "circle",
    filter := some "Point",
    paint := some [("circle-color", JLit.jstr "#000"),
                   ("circle-radius", JLit.jnum 2.5),
                   ("circle-opacity", JLit.jnum 0.75)] }

/-- The single data layer of the raster branch (factory.py lines 354-358). -/
def raster_layer : StyleLayer :=
  { id := "raster", type := "raster", source := "pmtiles" }

/-- The `layers` list of the StyleJSON document produced by
stylejson_endpoint, as a function of the archive's vector flag and of
`metadata().get("vector_layers")`.  The walrus test
`if vector_layers := meta.get("vector_layers")` treats both a missing
key and an empty list as falsy, skipping the per-descriptor loop. -/
def stylejson_layers (is_vector : Bool) (meta_vector_layers : Option (List LayerMeta)) :
    List StyleLayer :=
  if is_vector then
    match meta_vector_layers with
    | none => [basemap_layer]
    | some [] => [basemap_layer]
    | some vls =>
      basemap_layer :: vls.flatMap (fun layer =>
        (if layer.id = "mask" then mask_fill_layer layer.id else plain_fill_layer layer.id)
          :: stroke_layer layer.id :: [point_layer layer.id])
  else [basemap_layer, raster_layer]

/-- tilejson_endpoint (factory.py lines 200-201) sets the
`vector_layers` key only when `meta.get("vector_layers")` is truthy,
i.e. present and non-empty; the response model is serialized with
response_model_exclude_none, so a `none` field is omitted. -/
def tilejson_vector_layers (meta_vector_layers : Option (List LayerMeta)) :
    Option (List LayerMeta) :=
  match meta_vector_layers with
  | none => none
  | some [] => none
  | some vls => some vls

/-- Whether the serialized TileJSON document carries a vector_layers
field (response_model_exclude_none omits fields left at None). -/
def tilejson_serializes_vector_layers (meta_vector_layers : Option (List LayerMeta)) : Bool :=
  (tilejson_vector_layers meta_vector_layers).isSome

/-- The field default of TileJSON.bounds, copied verbatim from
model.py line 49 - note that the source's west value is 180. -/
def tilejson_default_bounds : List ℚ :=
  [180, -85.05112877980659, 180, 85.0511287798066]

/-- The TileJSON.compute_center root validator (model.py lines 52-62):
a missing center is derived from bounds and minzoom; Python's
`not values.get("center")` is true exactly for None since any supplied
3-tuple is truthy, so a supplied center passes through unchanged. -/
def compute_center (bounds : List ℚ) (minzoom : ℤ) (center : Option (ℚ × ℚ × ℤ)) :
    Option (ℚ × ℚ × ℤ) :=
  match center with
  | none => some ((bounds[0]! + bounds[2]!) / 2, (bounds[1]! + bounds[3]!) / 2, minzoom)
  | some c => some c

/-! ### URL composition (factory.py TilerFactory.url_for, lines 80-95)

url_for calls three starlette helpers: `compile_path` (of which only
the produced path_format and convertor keys matter here),
`replace_params`, and `URLPath.make_absolute_url`.  They are embedded
below from the starlette source.  Fallible steps (the unknown-convertor
assertion, duplicate-parameter check, convertor KeyError and the
StringConvertor.to_string assertions) are modelled with `Except`. -/

/-- Python `str.replace`: replace all non-overlapping occurrences of
`pat`, scanning left to right.  Structured with a fuel counter (set to
the length of the subject, which the scan never exceeds) so that the
recursion is structural. -/
def pyReplaceGo (fuel : Nat) (s pat rep : List Nat) : List Nat :=
  match fuel with
  | 0 => s
  | fuel + 1 =>
    match s with
    | [] => []
    | b :: rest =>
      if pat.isPrefixOf (b :: rest) then rep ++ pyReplaceGo fuel ((b :: rest).drop pat.length) pat rep
      else b :: pyReplaceGo fuel rest pat rep

/-- Python `str.replace s pat rep` (for the nonempty patterns
`"\x7b" + key + "\x7d"` used by replace_params). -/
def pyReplace (s pat rep : List Nat) : List Nat := pyReplaceGo s.length s pat rep

/-- Identifier-start byte for starlette's PARAM_REGEX (`[a-zA-Z_]`). -/
def isIdentStart (b : Nat) : Bool :=
  (decide (65 ≤ b) && decide (b ≤ 90)) || (decide (97 ≤ b) && decide (b ≤ 122)) || b == 95

/-- Identifier byte for starlette's PARAM_REGEX (`[a-zA-Z0-9_]`). -/
def isIdentChar (b : Nat) : Bool :=
  isIdentStart b || (decide (48 ≤ b) && decide (b ≤ 57))

/-- Match starlette's PARAM_REGEX at the byte following an opening
brace: an identifier, an optional `:convertor` suffix (defaulting to
"str"), then the closing brace.  Returns the parameter name, the
convertor type, and the bytes after the closing brace. -/
def matchParam : List Nat → Option (List Nat × List Nat × List Nat)
  | [] => none
  | b :: rest =>
    if isIdentStart b then
      let name := b :: rest.takeWhile isIdentChar
      match rest.dropWhile isIdentChar with
      | 125 :: rest2 => some (name, strBytes "str", rest2)
      | 58 :: rest2 =>
        match rest2 with
        | c :: rest3 =>
          if isIdentStart c then
            let ctype := c :: rest3.takeWhile isIdentChar
            match rest3.dropWhile isIdentChar with
            | 125 :: rest4 => some (name, ctype, rest4)
            | _ => none
          else none
        | [] => none
      | _ => none
    else none

/-- The keys of starlette's CONVERTOR_TYPES table. -/
def CONVERTOR_TYPES : List (List Nat) :=
  [strBytes "str", strBytes "path", strBytes "int", strBytes "float", strBytes "uuid"]

/-- Scanner core of starlette's compile_path, producing the
path_format (placeholders normalized to `\x7bname\x7d`) and the
convertor keys in order; an unknown convertor type is the source's
assertion failure.  Fuel-structured (fuel = input length suffices, as
each match step consumes at least the opening and closing braces). -/
def compile_path_go (fuel : Nat) : List Nat → Except String (List Nat × List (List Nat))
  | [] => .ok ([], [])
  | b :: rest =>
    match fuel with
    | 0 => .error "out of fuel"
    | fuel + 1 =>
      if b = 123 then
        match matchParam rest with
        | some (name, ctype, rest2) =>
          if ctype ∈ CONVERTOR_TYPES then
            match compile_path_go fuel rest2 with
            | .ok (fmt, names) => .ok (123 :: (name ++ 125 :: fmt), name :: names)
            | .error e => .error e
          else .error "Unknown path convertor"
        | none =>
          match compile_path_go fuel rest with
          | .ok (fmt, names) => .ok (123 :: fmt, names)
          | .error e => .error e
      else
        match compile_path_go fuel rest with
        | .ok (fmt, names) => .ok (b :: fmt, names)
        | .error e => .error e

/-- starlette compile_path, restricted to the two outputs url_for
consumes: the path_format and the convertor keys.  Duplicated
parameter names raise ValueError in the source. -/
def compile_path (s : List Nat) : Except String (List Nat × List (List Nat)) :=
  match compile_path_go s.length s with
  | .error e => .error e
  | .ok (fmt, names) =>
    if names.Nodup then .ok (fmt, names) else .error "Duplicated param names"

/-- starlette StringConvertor.to_string: asserts the value has no path
separator and is non-empty.  (All parameters exercised by the claims
use the default "str" convertor; other convertor types never reach a
substitution in any theorem below.) -/
def to_string (v : List Nat) : Except String (List Nat) :=
  if 47 ∈ v then .error "May not contain path separators"
  else if v = [] then .error "Must not be empty"
  else .ok v

/-- starlette replace_params: fold over the supplied path params; a
key whose placeholder occurs in the path is converted and substituted,
others are skipped (they are NOT an error - the placeholder simply
stays in the path).  `convertors` are the keys produced by
compile_path; a placeholder hit whose key is missing from them is the
source's KeyError. -/
def replace_params (path : List Nat) (convertors : List (List Nat))
    (path_params : List (List Nat × List Nat)) : Except String (List Nat) :=
  path_params.foldlM (fun p kv =>
    if (123 :: (kv.1 ++ [125])) <:+: p then
      if kv.1 ∈ convertors then
        match to_string kv.2 with
        | .ok v => .ok (pyReplace p (123 :: (kv.1 ++ [125])) v)
        | .error e => .error e
      else .error "KeyError"
    else .ok p) path

/-- Bytes ending a netloc in urlsplit: `/`, `?`, `#`. -/
def netlocEnd (b : Nat) : Bool := b == 47 || b == 63 || b == 35

/-- Split a URL string into its scheme-and-authority head and its path
(as urlsplit does, with query and fragment dropped as starlette's
URL(scheme, netloc, path) reconstruction drops them).  A base with no
`://` authority is treated as all-path, matching urlunsplit on an
empty scheme and netloc; the claims only exercise authority-form
bases. -/
def splitAuthorityPath (s : List Nat) : List Nat × List Nat :=
  let scheme := s.takeWhile (fun b => b != 58)
  let rest := s.dropWhile (fun b => b != 58)
  if rest.take 3 = [58, 47, 47] then
    let after := rest.drop 3
    (scheme ++ [58, 47, 47] ++ after.takeWhile (fun b => !netlocEnd b),
     ((after.dropWhile (fun b => !netlocEnd b)).takeWhile (fun b => b != 63 && b != 35)))
  else ([], s)

/-- Drop trailing slashes (Python `rstrip("/")`). -/
def rstripSlash (s : List Nat) : List Nat :=
  (s.reverse.dropWhile (fun b => b == 47)).reverse

/-- starlette URLPath.make_absolute_url: keep the base URL's scheme
and netloc and append `base.path.rstrip("/") + url_path`. -/
def make_absolute_url (url_path base_url : List Nat) : List Nat :=
  let (head, path) := splitAuthorityPath base_url
  head ++ rstripSlash path ++ url_path

/-- TilerFactory.url_for (factory.py lines 80-95): resolve the route
path, then, when a router prefix is configured, strip its leading
slashes, substitute any path-parameter placeholders from the current
request's bound path params, append it to the base URL, and make the
route path absolute against that base. -/
def url_for (base_url : List Nat) ( router_prefix : List Nat)
    (request_path_params : List (List Nat × List Nat)) (url_path : List Nat) :
    Except String (List Nat) :=
  if router_prefix = [] then .ok (make_absolute_url url_path base_url)
  else
    let pfx := router_prefix.dropWhile (fun b => b == 47)
    if 123 ∈ pfx then
      match compile_path pfx with
      | .error e => .error e
      | .ok (path_format, convertors) =>
        match replace_params path_format convertors request_path_params with
        | .error e => .error e
        | .ok pfx2 => .ok (make_absolute_url url_path (base_url ++ pfx2))
    else .ok (make_absolute_url url_path (base_url ++ pfx))

/-- The url_path produced by `router.url_path_for("tiles_endpoint",
z="\x7bz\x7d", x="\x7bx\x7d", y="\x7by\x7d")`: substituting the
literal placeholder tokens into the route's path format leaves the
template unchanged (see tiles_route_roundtrip below). -/
def tiles_url_path : List Nat := strBytes "/tiles/{z}/{x}/{y}"

/-- Modelling support: replace_params on the tiles route path format
with the z/x/y literal placeholder tokens returns the template
unchanged, so tiles_url_path is exactly what url_path_for yields. -/
theorem tiles_route_roundtrip :
    replace_params (strBytes "/tiles/{z}/{x}/{y}")
        [strBytes "z", strBytes "x", strBytes "y"]
        [(strBytes "z", strBytes "{z}"), (strBytes "x", strBytes "{x}"),
         (strBytes "y", strBytes "{y}")]
      = .ok tiles_url_path := by rfl

/-- The tile URL template embedded by tilejson_endpoint (factory.py
lines 179-187): url_for for the tiles endpoint, with the request's
query parameters appended as a query string when any are present. -/
def tilejson_tiles_url (base_url rp : List Nat)
    (request_path_params query_params_list : List (List Nat × List Nat)) :
    Except String (List Nat) :=
  match url_for base_url rp request_path_params tiles_url_path with
  | .error e => .error e
  | .ok tiles_url =>
    .ok (if query_params_list = [] then tiles_url
         else tiles_url ++ 63 :: urlencode query_params_list)

/-- The tile URL template embedded by stylejson_endpoint (factory.py
lines 217-225); the construction is identical to tilejson_endpoint's. -/
def stylejson_tiles_url (base_url rp : List Nat)
    (request_path_params query_params_list : List (List Nat × List Nat)) :
    Except String (List Nat) :=
  match url_for base_url rp request_path_params tiles_url_path with
  | .error e => .error e
  | .ok tiles_url =>
    .ok (if query_params_list = [] then tiles_url
         else tiles_url ++ 63 :: urlencode query_params_list)

/-! ### Round-trip of the generated query string -/

theorem hexVal_hexUpper : ∀ n < 16, hexVal? (hexUpper n) = some n := by decide

theorem unquote_cons_other (b : Nat) (t : List Nat) (h43 : b ≠ 43) (h37 : b ≠ 37) :
    unquote_plus (b :: t) = b :: unquote_plus t := by
  rw [unquote_plus.eq_def]
  split
  · simp_all
  · simp_all
  · simp_all
  · simp_all

theorem alwaysSafeByte_ne {b : Nat} (hs : alwaysSafeByte b) :
    b ≠ 43 ∧ b ≠ 37 ∧ b ≠ 38 ∧ b ≠ 61 ∧ b ≠ 63 := by
  unfold alwaysSafeByte at hs; omega

theorem unquote_quoteByte (b : Nat) (hb : b < 256) (t : List Nat) :
    unquote_plus (quoteByte b ++ t) = b :: unquote_plus t := by
  unfold quoteByte
  by_cases hs : alwaysSafeByte b
  · rw [if_pos hs]
    obtain ⟨h43, h37, -⟩ := alwaysSafeByte_ne hs
    simpa using unquote_cons_other b t h43 h37
  · rw [if_neg hs]
    by_cases h32 : b = 32
    · subst h32
      rw [if_pos rfl]
      simp [unquote_plus]
    · rw [if_neg h32]
      have hh : hexVal? (hexUpper (b / 16)) = some (b / 16) := hexVal_hexUpper _ (by omega)
      have hl : hexVal? (hexUpper (b % 16)) = some (b % 16) := hexVal_hexUpper _ (by omega)
      simp only [List.cons_append, List.nil_append]
      rw [unquote_plus.eq_def]
      simp [hh, hl]
      omega

theorem unquote_quote_plus (s : List Nat) (h : ∀ b ∈ s, b < 256) :
    unquote_plus (quote_plus s) = s := by
  induction s with
  | nil => rfl
  | cons b t ih =>
    have hb : b < 256 := h b (List.mem_cons_self b t)
    have ht : ∀ x ∈ t, x < 256 := fun x hx => h x (List.mem_cons_of_mem b hx)
    calc unquote_plus (quote_plus (b :: t))
        = unquote_plus (quoteByte b ++ quote_plus t) := by
          simp [quote_plus]
      _ = b :: unquote_plus (quote_plus t) := unquote_quoteByte b hb _
      _ = b :: t := by rw [ih ht]

theorem quote_plus_sep_free {s : List Nat} {x : Nat} (hx : x ∈ quote_plus s) :
    x ≠ 38 ∧ x ≠ 61 := by
  unfold quote_plus at hx
  rw [List.mem_flatMap] at hx
  obtain ⟨a, -, hxa⟩ := hx
  unfold quoteByte at hxa
  by_cases hs : alwaysSafeByte a
  · rw [if_pos hs] at hxa
    simp only [List.mem_singleton] at hxa
    subst hxa
    obtain ⟨-, -, h38, h61, -⟩ := alwaysSafeByte_ne hs
    exact ⟨h38, h61⟩
  · rw [if_neg hs] at hxa
    by_cases h32 : a = 32
    · rw [if_pos h32] at hxa
      simp only [List.mem_singleton] at hxa
      omega
    · rw [if_neg h32] at hxa
      simp only [List.mem_cons, List.mem_singleton, List.not_mem_nil, or_false] at hxa
      rcases hxa with rfl | rfl | rfl
      · exact ⟨by decide, by decide⟩
      · unfold hexUpper
        split <;> exact ⟨by omega, by omega⟩
      · unfold hexUpper
        split <;> exact ⟨by omega, by omega⟩

theorem decodeQuery_urlencode (qs : List (List Nat × List Nat))
    (hne : qs ≠ [])
    (hbytes : ∀ kv ∈ qs, (∀ b ∈ kv.1, b < 256) ∧ (∀ b ∈ kv.2, b < 256)) :
    decodeQuery (urlencode qs) = qs := by
  have hx38 : ∀ l ∈ qs.map (fun kv => quote_plus kv.1 ++ 61 :: quote_plus kv.2), 38 ∉ l := by
    intro l hl
    rw [List.mem_map] at hl
    obtain ⟨kv, -, rfl⟩ := hl
    intro hmem
    rcases List.mem_append.mp hmem with h | h
    · exact (quote_plus_sep_free h).1 rfl
    · rcases List.mem_cons.mp h with h61 | h
      · exact absurd h61 (by decide)
      · exact (quote_plus_sep_free h).1 rfl
  have hmapne : qs.map (fun kv => quote_plus kv.1 ++ 61 :: quote_plus kv.2) ≠ [] := by
    simpa using hne
  unfold decodeQuery urlencode
  rw [List.splitOn_intercalate _ 38 hx38 hmapne, List.map_map]
  have key : ∀ kv ∈ qs,
      ((fun part => (unquote_plus (part.takeWhile (fun b => b != 61)),
          unquote_plus ((part.dropWhile (fun b => b != 61)).drop 1)))
        ∘ (fun kv => quote_plus kv.1 ++ 61 :: quote_plus kv.2)) kv = kv := by
    intro kv hkv
    obtain ⟨hk, hv⟩ := hbytes kv hkv
    have hsafe : ∀ a ∈ quote_plus kv.1, (a != 61) = true := by
      intro a ha
      simpa using (quote_plus_sep_free ha).2
    simp only [Function.comp_apply]
    rw [List.takeWhile_append_of_pos hsafe, List.dropWhile_append_of_pos hsafe,
        List.takeWhile_cons_of_neg (by simp), List.dropWhile_cons_of_neg (by simp)]
    simp only [List.append_nil, List.drop_succ_cons, List.drop_zero]
    rw [unquote_quote_plus kv.1 hk, unquote_quote_plus kv.2 hv]
  rw [List.map_congr_left key, List.map_id']

/-! ### Claim theorems -/

/-- Claim C1: for a vector archive, the style synthesizer emits, for
each descriptor in metadata order, exactly the three layers id_fill,
id_stroke, id_point in that order, grouped per descriptor after the
initial basemap layer; the fill paint is solid black with opacity 0.8
for id "mask" and translucent purple rgba(200, 100, 240, 0.4) with a
black outline otherwise, while stroke and point layers do not depend
on the id; on metadata [roads, mask] the id sequence is exactly
[basemap, roads_fill, roads_stroke, roads_point, mask_fill,
mask_stroke, mask_point]. -/
theorem stylejson_vector_layers_spec :
    (∀ vls : List LayerMeta,
      stylejson_layers true (some vls)
        = { id := "basemap", type := "raster", source := "basemap",
            minzoom := some 0, maxzoom := some 20 }
          :: vls.flatMap (fun l =>
            [{ id := l.id ++ "_fill", type := "fill", source := "pmtiles",
               source_layer := some l.id, filter := some "Polygon",
               paint := some (if l.id = "mask"
                 then [("fill-color", JLit.jstr "black"),
                       ("fill-opacity", JLit.jnum 0.8)]
                 else [("fill-color", JLit.jstr "rgba(200, 100, 240, 0.4)"),
                       ("fill-outline-color", JLit.jstr "#000")]) },
             { id := l.id ++ "_stroke", type := "line", source := "pmtiles",
               source_layer := some l.id, filter := some "LineString",
               paint := some [("line-color", JLit.jstr "#000"),
                              ("line-width", JLit.jnum 1),
                              ("line-opacity", JLit.jnum 0.75)] },
             { id := l.id ++ "_point", type := "circle", source := "pmtiles",
               source_layer := some l.id, filter := some "Point",
               paint := some [("circle-color", JLit.jstr "#000"),
                              ("circle-radius", JLit.jnum 2.5),
                              ("circle-opacity", JLit.jnum 0.75)] }])
      ∧ (stylejson_layers true (some vls)).map StyleLayer.id
          = "basemap" :: vls.flatMap (fun l =>
              [l.id ++ "_fill", l.id ++ "_stroke", l.id ++ "_point"]))
    ∧ (stylejson_layers true (some [⟨"roads"⟩, ⟨"mask"⟩])).map StyleLayer.id
        = ["basemap", "roads_fill", "roads_stroke", "roads_point",
           "mask_fill", "mask_stroke", "mask_point"] := by
  have hFG : (fun (l : LayerMeta) =>
        (if l.id = "mask" then mask_fill_layer l.id else plain_fill_layer l.id)
          :: stroke_layer l.id :: [point_layer l.id])
      = (fun (l : LayerMeta) =>
            [{ id := l.id ++ "_fill", type := "fill", source := "pmtiles",
               source_layer := some l.id, filter := some "Polygon",
               paint := some (if l.id = "mask"
                 then [("fill-color", JLit.jstr "black"),
                       ("fill-opacity", JLit.jnum 0.8)]
                 else [("fill-color", JLit.jstr "rgba(200, 100, 240, 0.4)"),
                       ("fill-outline-color", JLit.jstr "#000")]) },
             { id := l.id ++ "_stroke", type := "line", source := "pmtiles",
               source_layer := some l.id, filter := some "LineString",
               paint := some [("line-color", JLit.jstr "#000"),
                              ("line-width", JLit.jnum 1),
                              ("line-opacity", JLit.jnum 0.75)] },
             { id := l.id ++ "_point", type := "circle", source := "pmtiles",
               source_layer := some l.id, filter := some "Point",
               paint := some [("circle-color", JLit.jstr "#000"),
                              ("circle-radius", JLit.jnum 2.5),
                              ("circle-opacity", JLit.jnum 0.75)] }]) := by
    funext l
    by_cases h : l.id = "mask"
    · simp [h, mask_fill_layer, stroke_layer, point_layer]
    · simp [h, plain_fill_layer, stroke_layer, point_layer]
  have hfull : ∀ vls : List LayerMeta,
      stylejson_layers true (some vls)
        = { id := "basemap", type := "raster", source := "basemap",
            minzoom := some 0, maxzoom := some 20 }
          :: vls.flatMap (fun l =>
            [{ id := l.id ++ "_fill", type := "fill", source := "pmtiles",
               source_layer := some l.id, filter := some "Polygon",
               paint := some (if l.id = "mask"
                 then [("fill-color", JLit.jstr "black"),
                       ("fill-opacity", JLit.jnum 0.8)]
                 else [("fill-color", JLit.jstr "rgba(200, 100, 240, 0.4)"),
                       ("fill-outline-color", JLit.jstr "#000")]) },
             { id := l.id ++ "_stroke", type := "line", source := "pmtiles",
               source_layer := some l.id, filter := some "LineString",
               paint := some [("line-color", JLit.jstr "#000"),
                              ("line-width", JLit.jnum 1),
                              ("line-opacity", JLit.jnum 0.75)] },
             { id := l.id ++ "_point", type := "circle", source := "pmtiles",
               source_layer := some l.id, filter := some "Point",
               paint := some [("circle-color", JLit.jstr "#000"),
                              ("circle-radius", JLit.jnum 2.5),
                              ("circle-opacity", JLit.jnum 0.75)] }]) := by
    intro vls
    cases vls with
    | nil => rfl
    | cons a rest =>
      simp only [stylejson_layers]
      rw [hFG]
      simp [basemap_layer]
  refine ⟨fun vls => ⟨hfull vls, ?_⟩, ?_⟩
  · rw [hfull vls]
    simp [List.map_flatMap]
  · rw [hfull [⟨"roads"⟩, ⟨"mask"⟩]]
    simp

/-- Claim C4: for a raster archive the style contains exactly two
layers in order - the basemap raster layer (zoom 0-20, source basemap)
and a single raster layer bound to the pmtiles source with no zoom
restriction and no filter. -/
theorem stylejson_raster_layers_spec :
    ∀ meta_vls : Option (List LayerMeta),
      stylejson_layers false meta_vls
        = [{ id := "basemap", type := "raster", source := "basemap",
             minzoom := some 0, maxzoom := some 20 },
           { id := "raster", type := "raster", source := "pmtiles",
             source_layer := none, minzoom := none, maxzoom := none,
             filter := none, paint := none }] := by
  intro meta_vls
  rfl

/-- Claim C5: a vector archive with a missing or empty vector-layers
metadata list yields exactly the basemap layer, with no error. -/
theorem stylejson_vector_no_layers :
    stylejson_layers true none
        = [{ id := "basemap", type := "raster", source := "basemap",
             minzoom := some 0, maxzoom := some 20 }]
      ∧ stylejson_layers true (some [])
          = [{ id := "basemap", type := "raster", source := "basemap",
               minzoom := some 0, maxzoom := some 20 }] :=
  ⟨rfl, rfl⟩

/-- Claim C3: a TileJSON constructed without a center derives it as
the midpoint of bounds at minzoom; a supplied center passes through
unchanged; bounds [-10, -5, 10, 5] at minzoom 2 yield (0, 0, 2). -/
theorem tilejson_center_spec :
    (∀ (w s e n : ℚ) (mz : ℤ),
        compute_center [w, s, e, n] mz none = some ((w + e) / 2, (s + n) / 2, mz))
    ∧ (∀ (bounds : List ℚ) (mz : ℤ) (c : ℚ × ℚ × ℤ),
        compute_center bounds mz (some c) = some c)
    ∧ compute_center [-10, -5, 10, 5] 2 none = some (0, 0, 2) := by
  refine ⟨fun w s e n mz => rfl, fun bounds mz c => rfl, ?_⟩
  simp only [compute_center]
  norm_num

/-- Claim C2 (code bug evidence): the TileJSON bounds field default in
model.py line 49 has west value 180, a degenerate envelope with
west = east = 180, not the -180 of the documented full-earth
Web-Mercator envelope. -/
theorem tilejson_default_bounds_west :
    tilejson_default_bounds[0]! = 180 ∧ tilejson_default_bounds[0]! ≠ -180 := by
  constructor
  · rfl
  · intro h
    have : (180 : ℚ) = -180 := by rw [← h]; rfl
    norm_num at this

/-- Claim C9: the serialized TileJSON carries a vector_layers field
iff the archive metadata holds a non-empty vector-layers list; a
missing or empty list omits the field entirely. -/
theorem tilejson_vector_layers_iff :
    ∀ meta_vls : Option (List LayerMeta),
      tilejson_serializes_vector_layers meta_vls = true
        ↔ ∃ vls, meta_vls = some vls ∧ vls ≠ [] := by
  intro m
  match m with
  | none =>
    simp [tilejson_serializes_vector_layers, tilejson_vector_layers]
  | some [] =>
    simp [tilejson_serializes_vector_layers, tilejson_vector_layers]
  | some (a :: rest) =>
    simp [tilejson_serializes_vector_layers, tilejson_vector_layers]

/-- Helper shared by the query-string claims: appending `?` and an
encoded query to a question-mark-free URL yields a URL whose query
string decodes to exactly the encoded parameter list. -/
theorem append_query_decode (u : List Nat) (qs : List (List Nat × List Nat))
    (hq : 63 ∉ u) (hne : qs ≠ [])
    (hbytes : ∀ kv ∈ qs, (∀ b ∈ kv.1, b < 256) ∧ (∀ b ∈ kv.2, b < 256)) :
    decodeQuery (queryStringOf (u ++ 63 :: urlencode qs)) = qs := by
  have hpos : ∀ b ∈ u, (b != 63) = true := by
    intro b hb
    simp only [bne_iff_ne, ne_eq]
    intro h
    subst h
    exact hq hb
  unfold queryStringOf
  rw [List.dropWhile_append_of_pos hpos, List.dropWhile_cons_of_neg (by simp)]
  simp only [List.drop_succ_cons, List.drop_zero]
  exact decodeQuery_urlencode qs hne hbytes

/-- Claim C6: for a /style.json request carrying the locator and any
extra query parameters, the generated pmtiles tile URL template's
query string contains exactly those parameters, in original order and
multiplicity, and no others. -/
theorem stylejson_query_exact (base_url rp u : List Nat)
    (pp qs : List (List Nat × List Nat))
    (hurl : url_for base_url rp pp tiles_url_path = .ok u)
    (hq : 63 ∉ u)
    (hne : qs ≠ [])
    (hbytes : ∀ kv ∈ qs, (∀ b ∈ kv.1, b < 256) ∧ (∀ b ∈ kv.2, b < 256)) :
    stylejson_tiles_url base_url rp pp qs = .ok (u ++ 63 :: urlencode qs)
      ∧ decodeQuery (queryStringOf (u ++ 63 :: urlencode qs)) = qs := by
  constructor
  · unfold stylejson_tiles_url
    rw [hurl]
    simp [hne]
  · exact append_query_decode u qs hq hne hbytes

/-- Claim C6 witness at a concrete request. -/
theorem stylejson_query_exact_witness :
    url_for (strBytes "http://testserver/") [] [] tiles_url_path
        = .ok (strBytes "http://testserver/tiles/{z}/{x}/{y}")
      ∧ 63 ∉ strBytes "http://testserver/tiles/{z}/{x}/{y}"
      ∧ (stylejson_tiles_url (strBytes "http://testserver/") [] []
            [(strBytes "url", strBytes "fixtures/firenze.pmtiles"),
             (strBytes "opt", strBytes "a b&c=d")]
          = .ok (strBytes "http://testserver/tiles/{z}/{x}/{y}" ++ 63 ::
              urlencode [(strBytes "url", strBytes "fixtures/firenze.pmtiles"),
                         (strBytes "opt", strBytes "a b&c=d")])
        ∧ decodeQuery (queryStringOf (strBytes "http://testserver/tiles/{z}/{x}/{y}" ++ 63 ::
              urlencode [(strBytes "url", strBytes "fixtures/firenze.pmtiles"),
                         (strBytes "opt", strBytes "a b&c=d")]))
          = [(strBytes "url", strBytes "fixtures/firenze.pmtiles"),
             (strBytes "opt", strBytes "a b&c=d")]) :=
  ⟨by rfl, by decide,
   stylejson_query_exact (strBytes "http://testserver/") []
     (strBytes "http://testserver/tiles/{z}/{x}/{y}") []
     [(strBytes "url", strBytes "fixtures/firenze.pmtiles"),
      (strBytes "opt", strBytes "a b&c=d")]
     (by rfl) (by decide) (by decide) (by decide)⟩

/-- Claim C7: the locator and every extra query parameter round-trip
verbatim onto the tile URL embedded by /tilejson.json, whose query
string decodes back to exactly the original parameter list, and
/style.json embeds the identical URL. -/
theorem tilejson_query_roundtrip (base_url rp u : List Nat)
    (pp qs : List (List Nat × List Nat))
    (hurl : url_for base_url rp pp tiles_url_path = .ok u)
    (hq : 63 ∉ u)
    (hne : qs ≠ [])
    (hbytes : ∀ kv ∈ qs, (∀ b ∈ kv.1, b < 256) ∧ (∀ b ∈ kv.2, b < 256)) :
    tilejson_tiles_url base_url rp pp qs = .ok (u ++ 63 :: urlencode qs)
      ∧ tilejson_tiles_url base_url rp pp qs = stylejson_tiles_url base_url rp pp qs
      ∧ decodeQuery (queryStringOf (u ++ 63 :: urlencode qs)) = qs := by
  refine ⟨?_, rfl, append_query_decode u qs hq hne hbytes⟩
  unfold tilejson_tiles_url
  rw [hurl]
  simp [hne]

/-- Claim C7 witness at a concrete request. -/
theorem tilejson_query_roundtrip_witness :
    url_for (strBytes "http://testserver/") [] [] tiles_url_path
        = .ok (strBytes "http://testserver/tiles/{z}/{x}/{y}")
      ∧ 63 ∉ strBytes "http://testserver/tiles/{z}/{x}/{y}"
      ∧ (tilejson_tiles_url (strBytes "http://testserver/") [] []
            [(strBytes "url", strBytes "s3://bucket/archive.pmtiles")]
          = .ok (strBytes "http://testserver/tiles/{z}/{x}/{y}" ++ 63 ::
              urlencode [(strBytes "url", strBytes "s3://bucket/archive.pmtiles")])
        ∧ decodeQuery (queryStringOf (strBytes "http://testserver/tiles/{z}/{x}/{y}" ++ 63 ::
              urlencode [(strBytes "url", strBytes "s3://bucket/archive.pmtiles")]))
          = [(strBytes "url", strBytes "s3://bucket/archive.pmtiles")]) :=
  ⟨by rfl, by decide,
   (tilejson_query_roundtrip (strBytes "http://testserver/") []
     (strBytes "http://testserver/tiles/{z}/{x}/{y}") []
     [(strBytes "url", strBytes "s3://bucket/archive.pmtiles")]
     (by rfl) (by decide) (by decide) (by decide)).1,
   (tilejson_query_roundtrip (strBytes "http://testserver/") []
     (strBytes "http://testserver/tiles/{z}/{x}/{y}") []
     [(strBytes "url", strBytes "s3://bucket/archive.pmtiles")]
     (by rfl) (by decide) (by decide) (by decide)).2.2⟩

/-- Claim C8 counterexample: with mount prefix "\x7bcollectionId\x7d"
and a request binding no path parameters, url_for raises no error and
returns a URL with the unresolved placeholder kept verbatim, contrary
to the claimed Configuration-class failure. -/
theorem url_for_missing_param_counterexample :
    url_for (strBytes "http://testserver/") (strBytes "{collectionId}") [] tiles_url_path
      = .ok (strBytes "http://testserver/{collectionId}/tiles/{z}/{x}/{y}") := by
  rfl

/-- Claim C8 amended: when the mount prefix contains placeholders and
the request binds no path parameters, url_for succeeds and the
unresolved placeholders stay (in compile_path's normalized form) in
the composed URL. -/
theorem url_for_missing_param_keeps_placeholder
    (base_url rp fmt : List Nat) (cvs : List (List Nat))
    (hrp : rp ≠ [])
    (hbrace : 123 ∈ rp.dropWhile (fun b => b == 47))
    (hcompile : compile_path (rp.dropWhile (fun b => b == 47)) = .ok (fmt, cvs)) :
    url_for base_url rp [] tiles_url_path
      = .ok (make_absolute_url tiles_url_path (base_url ++ fmt)) := by
  simp only [url_for]
  rw [if_neg hrp, if_pos hbrace, hcompile]
  simp only [replace_params, List.foldlM_nil]
  rfl

/-- Claim C8 amended witness at the concrete prefix. -/
theorem url_for_missing_param_keeps_placeholder_witness :
    strBytes "{collectionId}" ≠ []
      ∧ 123 ∈ (strBytes "{collectionId}").dropWhile (fun b => b == 47)
      ∧ compile_path ((strBytes "{collectionId}").dropWhile (fun b => b == 47))
          = .ok (strBytes "{collectionId}", [strBytes "collectionId"])
      ∧ url_for (strBytes "http://testserver/") (strBytes "{collectionId}") [] tiles_url_path
          = .ok (make_absolute_url tiles_url_path
              (strBytes "http://testserver/" ++ strBytes "{collectionId}")) :=
  ⟨by decide, by decide, by rfl,
   url_for_missing_param_keeps_placeholder _ _ _ _ (by decide) (by decide) (by rfl)⟩

/-- splitAuthorityPath on a well-formed scheme://netloc/path base
splits exactly at the first slash after the authority. -/
theorem splitAuthorityPath_std (scheme netloc path2 : List Nat)
    (hs : ∀ b ∈ scheme, b ≠ 58)
    (hn : ∀ b ∈ netloc, b ≠ 47 ∧ b ≠ 63 ∧ b ≠ 35)
    (hp : ∀ b ∈ path2, b ≠ 63 ∧ b ≠ 35) :
    splitAuthorityPath (scheme ++ [58, 47, 47] ++ netloc ++ 47 :: path2)
      = (scheme ++ [58, 47, 47] ++ netloc, 47 :: path2) := by
  have hs2 : ∀ a ∈ scheme, ((fun b => b != 58) a) = true := by
    intro a ha
    simpa using hs a ha
  have hn2 : ∀ a ∈ netloc, ((fun b => !netlocEnd b) a) = true := by
    intro a ha
    obtain ⟨h47, h63, h35⟩ := hn a ha
    simp [netlocEnd, h47, h63, h35]
  have hp2 : ∀ a ∈ path2, ((fun b => b != 63 && b != 35) a) = true := by
    intro a ha
    obtain ⟨h63, h35⟩ := hp a ha
    simp [h63, h35]
  unfold splitAuthorityPath
  rw [List.append_assoc, List.append_assoc]
  rw [List.takeWhile_append_of_pos hs2, List.dropWhile_append_of_pos hs2]
  simp only [List.cons_append, List.nil_append]
  rw [List.takeWhile_cons_of_neg (by simp), List.dropWhile_cons_of_neg (by simp)]
  simp only [List.append_nil, List.take_succ_cons, List.take_zero, List.drop_succ_cons,
    List.drop_zero, if_pos rfl]
  rw [List.takeWhile_append_of_pos hn2, List.dropWhile_append_of_pos hn2]
  rw [List.takeWhile_cons_of_neg (by simp [netlocEnd]), List.dropWhile_cons_of_neg (by simp [netlocEnd])]
  rw [List.takeWhile_cons_of_pos (by simp)]
  rw [List.takeWhile_eq_self_iff.mpr hp2]
  simp [List.append_assoc]

/-- rstripSlash commutes with a leading slash when the list starts
with a non-slash byte. -/
theorem rstripSlash_cons47 (l : List Nat) (hne : l ≠ []) (hhd : l.head hne ≠ 47) :
    rstripSlash (47 :: l) = 47 :: rstripSlash l := by
  unfold rstripSlash
  rw [List.reverse_cons]
  have hdw : l.reverse.dropWhile (fun b => b == 47) ≠ [] := by
    intro hnil
    rw [List.dropWhile_eq_nil_iff] at hnil
    have hmem : l.head hne ∈ l.reverse := by
      simp [List.head_mem]
    have h2 := hnil _ hmem
    simp only [beq_iff_eq] at h2
    exact hhd h2
  rw [List.dropWhile_append, if_neg (by simpa [List.isEmpty_iff] using hdw)]
  simp

/-- Claim C10 counterexample: with router prefix "cog/", the composed
URL is not base-url ++ stripped-prefix ++ route-path: the starlette
URL join also removes the trailing slash at the prefix-route
boundary. -/
theorem url_for_prefix_counterexample :
    url_for (strBytes "http://testserver/") (strBytes "cog/") [] tiles_url_path
        = .ok (strBytes "http://testserver/cog/tiles/{z}/{x}/{y}")
      ∧ strBytes "http://testserver/cog/tiles/{z}/{x}/{y}"
          ≠ strBytes "http://testserver/"
              ++ (strBytes "cog/").dropWhile (fun b => b == 47) ++ tiles_url_path :=
  ⟨by rfl, by decide⟩

/-- Claim C10 amended: for a base URL of the canonical
scheme://netloc/ request form and a non-empty placeholder-free router
prefix, url_for strips the prefix's leading slashes and the URL join
strips its trailing slashes, composing
base-url ++ (prefix stripped on both sides) ++ route-path with no
doubled slash at either boundary. -/
theorem url_for_prefix_normalization
    (scheme netloc rp url_path : List Nat)
    (pp : List (List Nat × List Nat))
    (hs : ∀ b ∈ scheme, b ≠ 58)
    (hn : ∀ b ∈ netloc, b ≠ 47 ∧ b ≠ 63 ∧ b ≠ 35)
    (hrp : rp ≠ [])
    (hpfx : rp.dropWhile (fun b => b == 47) ≠ [])
    (hbrace : 123 ∉ rp.dropWhile (fun b => b == 47))
    (hq : ∀ b ∈ rp, b ≠ 63 ∧ b ≠ 35) :
    url_for (scheme ++ [58, 47, 47] ++ netloc ++ [47]) rp pp url_path
      = .ok (scheme ++ [58, 47, 47] ++ netloc ++ [47]
          ++ rstripSlash (rp.dropWhile (fun b => b == 47)) ++ url_path) := by
  have hpfx_mem : ∀ b ∈ rp.dropWhile (fun b => b == 47), b ≠ 63 ∧ b ≠ 35 := by
    intro b hb
    exact hq b (List.Sublist.mem hb (List.dropWhile_sublist _))
  have hhd0 := List.head_dropWhile_not (fun b => b == 47) rp hpfx
  have hhd : (rp.dropWhile (fun b => b == 47)).head hpfx ≠ 47 := by
    simpa using hhd0
  simp only [url_for]
  rw [if_neg hrp, if_neg hbrace]
  have hbase : (scheme ++ [58, 47, 47] ++ netloc ++ [47])
        ++ rp.dropWhile (fun b => b == 47)
      = scheme ++ [58, 47, 47] ++ netloc ++ 47 :: rp.dropWhile (fun b => b == 47) := by
    simp [List.append_assoc]
  rw [make_absolute_url, hbase,
    splitAuthorityPath_std scheme netloc _ hs hn hpfx_mem]
  simp only []
  rw [rstripSlash_cons47 _ hpfx hhd]
  simp [List.append_assoc]

/-- Claim C10 amended witness at a concrete prefix written with a
leading slash. -/
theorem url_for_prefix_normalization_witness :
    (∀ b ∈ strBytes "http", b ≠ 58)
      ∧ (∀ b ∈ strBytes "testserver", b ≠ 47 ∧ b ≠ 63 ∧ b ≠ 35)
      ∧ strBytes "/cog" ≠ []
      ∧ (strBytes "/cog").dropWhile (fun b => b == 47) ≠ []
      ∧ 123 ∉ (strBytes "/cog").dropWhile (fun b => b == 47)
      ∧ (∀ b ∈ strBytes "/cog", b ≠ 63 ∧ b ≠ 35)
      ∧ url_for (strBytes "http" ++ [58, 47, 47] ++ strBytes "testserver" ++ [47])
            (strBytes "/cog") [] tiles_url_path
          = .ok (strBytes "http" ++ [58, 47, 47] ++ strBytes "testserver" ++ [47]
              ++ rstripSlash ((strBytes "/cog").dropWhile (fun b => b == 47))
              ++ tiles_url_path) :=
  ⟨by decide, by decide, by decide, by decide, by decide, by decide,
   url_for_prefix_normalization _ _ _ _ _ (by decide) (by decide) (by decide)
     (by decide) (by decide) (by decide)⟩

end ThatcherTiler
